import Mathlib

/-!
Verification of the clipMaker clip-assembly pipeline.

This file gives a shallow embedding of the backend route of the clipMaker
repository (the createClip render-plan builder and executor, the
processClipJob worker wrapper, and the POST/GET handlers), and proves or
refutes the frozen claims about it.  Numeric values flowing through the
pipeline are JavaScript numbers produced by parseFloat; they are modelled
exactly, with NaN and the infinities as explicit constructors and finite
values as rationals.  Filter-graph strings are modelled structurally: each
string template pushed by the source corresponds to one constructor whose
fields are the interpolated values, so equality and inequality of the
modelled fragments coincide with equality and inequality of the strings.
-/

namespace ClipMaker

/-- A JavaScript number as produced by parseFloat: NaN, an infinity, or a
finite value (modelled exactly as a rational). -/
inductive JNum where
  | nan
  | inf
  | ninf
  | num (q : ℚ)
deriving DecidableEq, Repr

namespace JNum

/-- JS isNaN. -/
def isNaN : JNum → Bool
  | nan => true
  | _ => false

/-- JS comparison x <= 0 (false for NaN and for positive infinity). -/
def le0 : JNum → Bool
  | nan => false
  | inf => false
  | ninf => true
  | num q => decide (q ≤ 0)

/-- JS falsiness of a number: NaN and 0 are falsy, everything else truthy. -/
def isFalsy : JNum → Bool
  | nan => true
  | num q => decide (q = 0)
  | _ => false

/-- JS isFinite. -/
def isFinite : JNum → Bool
  | num _ => true
  | _ => false

/-- A positive finite JS number: the valid durations of the spec. -/
def isPosFinite : JNum → Bool
  | num q => decide (0 < q)
  | _ => false

/-- JS addition on the values this pipeline produces. -/
def add : JNum → JNum → JNum
  | nan, _ => nan
  | _, nan => nan
  | inf, ninf => nan
  | ninf, inf => nan
  | inf, _ => inf
  | _, inf => inf
  | ninf, _ => ninf
  | _, ninf => ninf
  | num a, num b => num (a + b)

/-- JS negation. -/
def neg : JNum → JNum
  | nan => nan
  | inf => ninf
  | ninf => inf
  | num q => num (-q)

/-- JS subtraction. -/
def sub (a b : JNum) : JNum := a.add b.neg

/-- Division by two, as used for duration / 2. -/
def half : JNum → JNum
  | nan => nan
  | inf => inf
  | ninf => ninf
  | num q => num (q / 2)

/-- JS Math.min on two numbers (NaN absorbs). -/
def mathMin : JNum → JNum → JNum
  | nan, _ => nan
  | _, nan => nan
  | ninf, _ => ninf
  | _, ninf => ninf
  | inf, b => b
  | a, inf => a
  | num a, num b => num (min a b)

/-- The rational carried by a finite value (0 for the non-finite ones). -/
def toQ : JNum → ℚ
  | num q => q
  | _ => 0

@[simp] theorem add_num_num (a b : ℚ) : (num a).add (num b) = num (a + b) := rfl

@[simp] theorem sub_num_num (a b : ℚ) : (num a).sub (num b) = num (a - b) := by
  show (num a).add (num b).neg = num (a - b)
  show num (a + -b) = num (a - b)
  rw [← sub_eq_add_neg]

@[simp] theorem half_num (a : ℚ) : (num a).half = num (a / 2) := rfl

@[simp] theorem mathMin_num_num (a b : ℚ) : (num a).mathMin (num b) = num (min a b) := rfl

@[simp] theorem toQ_num (a : ℚ) : (num a).toQ = a := rfl

theorem isPosFinite_exists {d : JNum} (h : d.isPosFinite = true) :
    ∃ q : ℚ, d = num q ∧ 0 < q := by
  cases d with
  | num q => exact ⟨q, rfl, by simpa [isPosFinite] using h⟩
  | nan => simp [isPosFinite] at h
  | inf => simp [isPosFinite] at h
  | ninf => simp [isPosFinite] at h

end JNum

/-- The type field of a media item: the string literals image and video. -/
inductive MediaKind where
  | image
  | video
deriving DecidableEq, Repr

/-- One slot of a clip job as handed to createClip.  The duration field holds
the value of parseFloat applied to the transported duration metadata;
parseFloat is deterministic, so carrying the parsed value is faithful. -/
structure MediaItem where
  path : String
  duration : JNum
  kind : MediaKind
  text : String
deriving DecidableEq, Repr

/-- One entry of the filters array of createClip.  Each constructor stands for
one fixed string template of the source; the fields are exactly the values the
source interpolates into that template.

imageChain is the image branch:
scale 1280x720 / pad / setsar / fps 30, then trim=duration, then
fade in (start, length) and fade out (start, length).

videoChain is the video branch:
scale / pad / setsar / fps 30, then setpts, then fade in and fade out.

drawtext is the caption overlay pushed for item i with the given font file and
text.  concat is the final concatenation line built from the input labels
(index, whether the text-suffixed label is used) and the item count. -/
inductive FilterFrag where
  | imageChain (i : ℕ) (trimDur fadeInStart fadeInDur fadeOutStart fadeOutDur : JNum)
  | videoChain (i : ℕ) (fadeInStart fadeInDur fadeOutStart fadeOutDur : JNum)
  | drawtext (i : ℕ) (fontfile text : String)
  | concat (inputs : List (ℕ × Bool)) (n : ℕ)
deriving DecidableEq, Repr

/-- The fixed transition length, 0.5 seconds. -/
def fadeDuration : JNum := .num (1 / 2)

/-- Image branch duration: parseFloat(item.duration) || 4. -/
def resolvedImageDur (d : JNum) : JNum := if d.isFalsy then .num 4 else d

/-- Video branch contribution to totalDuration: 10 when
isNaN(duration) || duration <= 0, the parsed duration otherwise. -/
def videoDurContribution (d : JNum) : JNum := if d.isNaN || d.le0 then .num 10 else d

/-- The amount the loop adds to totalDuration for one item: the resolved
display duration of that item. -/
def durContribution (item : MediaItem) : JNum :=
  match item.kind with
  | .image => resolvedImageDur item.duration
  | .video => videoDurContribution item.duration

/-- The per-item filter chain pushed by the loop.  The image branch trims to
the resolved duration and clamps the fade length to
min(fadeDuration, duration / 2); the video branch uses the fixed fade length
on the raw parsed duration. -/
def chainFilter (i : ℕ) (item : MediaItem) : FilterFrag :=
  match item.kind with
  | .image =>
    let duration := resolvedImageDur item.duration
    let eff := JNum.mathMin fadeDuration duration.half
    .imageChain i duration (.num 0) eff (duration.sub eff) eff
  | .video =>
    .videoChain i (.num 0) fadeDuration (item.duration.sub fadeDuration) fadeDuration

/-- The caption guard of the source: item.text && fontPath. -/
def captionOn (fontPath : String) (item : MediaItem) : Bool :=
  item.text != "" && fontPath != ""

/-- All filter entries pushed for item i in one loop iteration: the chain, then
the drawtext overlay when the caption guard holds. -/
def itemFilters (fontPath : String) (i : ℕ) (item : MediaItem) : List FilterFrag :=
  [chainFilter i item] ++
    (if captionOn fontPath item then [.drawtext i fontPath item.text] else [])

/-- The mutable state of the createClip loop: the running totalDuration, the
filters array and the inputs array (input label index plus whether the
text-suffixed label replaced the plain one). -/
structure PlanState where
  totalDuration : JNum
  filters : List FilterFrag
  inputs : List (ℕ × Bool)
deriving DecidableEq, Repr

/-- One iteration of the createClip media loop. -/
def processItem (fontPath : String) (i : ℕ) (item : MediaItem) (st : PlanState) : PlanState :=
  { totalDuration := st.totalDuration.add (durContribution item)
    filters := st.filters ++ itemFilters fontPath i item
    inputs := st.inputs ++ [(i, captionOn fontPath item)] }

/-- The createClip loop over the media items, indexed from i. -/
def buildPlanAux (fontPath : String) : ℕ → List MediaItem → PlanState → PlanState
  | _, [], st => st
  | i, item :: rest, st => buildPlanAux fontPath (i + 1) rest (processItem fontPath i item st)

/-- The derived render plan: the computed totalDuration, the full filters
array including the final concat line, and the value passed to the encoder as
the -t output option (the source passes totalDuration.toString()). -/
structure RenderPlan where
  totalDuration : JNum
  filters : List FilterFrag
  tOption : JNum
deriving DecidableEq, Repr

/-- The plan-building part of createClip: run the loop from an empty state,
then append the concat line and emit the output options. -/
def createClipPlan (fontPath : String) (items : List MediaItem) : RenderPlan :=
  let st := buildPlanAux fontPath 0 items ⟨.num 0, [], []⟩
  { totalDuration := st.totalDuration
    filters := st.filters ++ [.concat st.inputs items.length]
    tOption := st.totalDuration }

/-- The project font asset path (cwd prefix elided; only identity and
non-emptiness of the strings matter to the model). -/
def assetFontPath : String := "assets/fonts/DejaVuSans-Bold.ttf"

/-- The Linux fallback font path. -/
def linuxFontPath : String := "/usr/share/fonts/truetype/dejavu/DejaVuSans-Bold.ttf"

/-- The Windows fallback font path. -/
def windowsFontPath : String := "C:/Windows/Fonts/arial.ttf"

/-- Which of the three probed font files exist on disk. -/
structure FontEnv where
  assetFont : Bool
  linuxFont : Bool
  windowsFont : Bool
deriving DecidableEq, Repr

/-- The font resolution chain at the top of createClip: probe the project
asset, then the Linux path, then the Windows path, and fall back to the empty
string when none exists. -/
def resolveFontPath (e : FontEnv) : String :=
  if e.assetFont then assetFontPath
  else if e.linuxFont then linuxFontPath
  else if e.windowsFont then windowsFontPath
  else ""

/-- How the encoder subprocess run settles: the end event or an error event. -/
inductive ExecEvent where
  | ends
  | errors (msg : String)
deriving DecidableEq, Repr

/-- One subprocess execution: which event would settle the promise and the
wall-clock millisecond at which it fires. -/
structure ExecEnv where
  event : ExecEvent
  eventAtMs : ℕ
deriving DecidableEq, Repr

/-- The hard timeout ceiling: 15 * 60 * 1000 milliseconds. -/
def timeoutMs : ℕ := 15 * 60 * 1000

/-- The message of the rejection raised by the timeout handler. -/
def timeoutMessage : String := "FFmpeg process timed out after 15 minutes"

/-- How the createClip promise settles. -/
inductive RenderOutcome where
  | resolved (value : JNum)
  | rejected (msg : String)
deriving DecidableEq, Repr

/-- The settled createClip promise together with whether the subprocess was
killed by the timeout handler. -/
structure ExecResult where
  outcome : RenderOutcome
  killed : Bool
deriving DecidableEq, Repr

/-- The promise part of createClip: when the settling event fires after the
timeout ceiling, the timer kills the subprocess and rejects with the timeout
message; otherwise the end event resolves with totalDuration and an error
event rejects with the engine message. -/
def runCreateClip (plan : RenderPlan) (env : ExecEnv) : ExecResult :=
  if timeoutMs < env.eventAtMs then
    { outcome := .rejected timeoutMessage, killed := true }
  else
    match env.event with
    | .ends => { outcome := .resolved plan.totalDuration, killed := false }
    | .errors msg => { outcome := .rejected msg, killed := false }

/-- What the worker can observe on disk after the encoder run: whether the
target output file exists and its size in bytes (the size is available to the
worker through fs.stat but, in the current code, is never consulted before
declaring success). -/
structure DiskEnv where
  outputExists : Bool
  outputSize : ℕ
deriving DecidableEq, Repr

/-- The structured result returned by processClipJob: success flag, the path
and file name of the produced clip on success, and the caught error message
on failure. -/
structure JobResult where
  success : Bool
  clipPath : Option String
  fileName : Option String
  error : Option String
deriving DecidableEq, Repr

/-- The os.tmpdir() prefix of the temporary output path. -/
def osTmpDir : String := "/tmp"

/-- The worker body processClipJob: build the plan, run the encoder, then
check with fs.pathExists that the output file was created.  Every raised
error, the timeout and the missing-output error included, is caught and
turned into a structured failure result; the function never throws. -/
def processClipJob (items : List MediaItem) (fe : FontEnv) (env : ExecEnv) (disk : DiskEnv)
    (tempFileName : String) : JobResult :=
  let plan := createClipPlan (resolveFontPath fe) items
  match (runCreateClip plan env).outcome with
  | .rejected msg => { success := false, clipPath := none, fileName := none, error := some msg }
  | .resolved _ =>
    if disk.outputExists then
      { success := true, clipPath := some (osTmpDir ++ "/" ++ tempFileName)
        fileName := some tempFileName, error := none }
    else
      { success := false, clipPath := none, fileName := none
        error := some "Output file was not created" }

/-- The bullmq job states the GET handler distinguishes. -/
inductive QState where
  | waiting
  | active
  | completed
  | failed
deriving DecidableEq, Repr

/-- The queue record of one job after the worker ran it: its state, its stored
return value, and how many processing attempts were made. -/
structure JobRecord where
  state : QState
  returnvalue : Option JobResult
  attemptsMade : ℕ
deriving DecidableEq, Repr

/-- The queue settling one dequeued job.  processClipJob returns a structured
result on every path instead of throwing, so bullmq records the job as
completed with that return value after the single processing attempt; a
completed job is terminal and is never re-enqueued. -/
def runWorkerOnce (items : List MediaItem) (fe : FontEnv) (env : ExecEnv) (disk : DiskEnv)
    (tempFileName : String) : JobRecord :=
  { state := .completed
    returnvalue := some (processClipJob items fe env disk tempFileName)
    attemptsMade := 1 }

/-- A response of the GET handler: a JSON response with an HTTP status and a
list of body fields, or the streamed clip file. -/
inductive GetResponse where
  | jsonRes (status : ℕ) (body : List (String × String))
  | stream (clipPath : String) (fileName : Option String)
deriving DecidableEq, Repr

/-- The body of the failure JSON response of the GET handler. -/
def failedBody : List (String × String) :=
  [("status", "failed"), ("error", "Clip creation failed")]

/-- The GET handler of the status endpoint: 400 without a job id, 404 for an
unknown job, and for a completed job either the streamed file (when the stored
result is truthy with success set and a truthy clipPath) or the 200 failure
JSON; a failed job also yields the failure JSON and any other state yields
the processing JSON. -/
def getHandler (jobId : Option String) (job : Option JobRecord) : GetResponse :=
  match jobId with
  | none => .jsonRes 400 [("error", "Job ID is required")]
  | some _ =>
    match job with
    | none => .jsonRes 404 [("error", "Job not found")]
    | some j =>
      match j.state with
      | .completed =>
        match j.returnvalue with
        | some r =>
          match r.clipPath with
          | some p =>
            if r.success && p != "" then .stream p r.fileName else .jsonRes 200 failedBody
          | none => .jsonRes 200 failedBody
        | none => .jsonRes 200 failedBody
      | .failed => .jsonRes 200 failedBody
      | _ => .jsonRes 200 [("status", "processing")]

/-- The parsed multipart form of one submission: the uploaded file names and
the scalar metadata fields. -/
structure PostInput where
  files : List String
  metadata : List (String × String)
deriving DecidableEq, Repr

/-- The response of the POST handler plus whether a job was added to the
queue before responding. -/
structure PostOutput where
  status : ℕ
  body : List (String × String)
  enqueued : Bool
deriving DecidableEq, Repr

/-- The POST intake handler: save the uploads, throw when no file was
uploaded (caught and mapped to a 500 JSON error response, with nothing
enqueued), otherwise add the job to the queue and answer 200. -/
def postHandler (inp : PostInput) (sessionId jobId : String) : PostOutput :=
  if inp.files.isEmpty then
    { status := 500, body := [("error", "Error processing request")], enqueued := false }
  else
    { status := 200
      body := [("success", "true"), ("message", "Clip creation job queued"),
        ("jobId", jobId), ("sessionId", sessionId)]
      enqueued := true }

/-- How an attempted webhook POST settles: delivered with an ok response, an
http error response, or a thrown network error. -/
inductive WebhookOutcome where
  | delivered
  | httpError (status : ℕ) (statusText : String)
  | networkError (msg : String)
deriving DecidableEq, Repr

/-- The environment of one run of the webhook-reporting worker revision: the
encoder run, the state of the output file, the configured webhook url and how
the webhook call would settle. -/
structure Job3Env where
  exec : ExecEnv
  outputExists : Bool
  outputSize : ℕ
  webhookUrl : String
  webhook : WebhookOutcome
deriving DecidableEq, Repr

/-- The structured result of the webhook-reporting worker revision. -/
structure Job3Result where
  success : Bool
  clipUrl : Option String
  error : Option String
deriving DecidableEq, Repr

/-- The totalDuration recomputed by that worker revision:
reduce (+ parseFloat duration) 0 over the media items. -/
def totalDurationReduce (items : List MediaItem) : JNum :=
  items.foldl (fun t it => t.add it.duration) (.num 0)

/-- The JSON payload which that worker revision posts to the webhook. -/
structure WebhookPayload where
  clipUrl : String
  fileSize : ℕ
  duration : JNum
  mediaItemCount : ℕ
deriving DecidableEq, Repr

/-- The log entries produced by the webhook step: a success log on delivery,
an error log when the fetch throws or the response is not ok (the inner catch
only logs), and a warning when no url is configured. -/
def webhookLogs (url : String) (w : WebhookOutcome) : List (String × String) :=
  if url != "" then
    match w with
    | .delivered => [("info", "Clip sent to webhook successfully")]
    | .httpError _ _ => [("error", "Error sending clip to webhook")]
    | .networkError _ => [("error", "Error sending clip to webhook")]
  else [("warn", "Webhook URL not set, skipping webhook call")]

/-- The settled createClip promise as seen by a caller that discards the
resolved value: the timeout, end and error events settle it exactly as in
runCreateClip. -/
def createClipSettled (env : ExecEnv) : Except String Unit :=
  if timeoutMs < env.eventAtMs then .error timeoutMessage
  else
    match env.event with
    | .ends => .ok ()
    | .errors msg => .error msg

/-- The webhook-reporting worker revision of processClipJob: run the encoder,
check the output file exists, then attempt the webhook notification inside
its own try/catch whose catch only logs, and return the structured result.
The returned triple is the job result, the produced log entries, and the
payload sent to the webhook when a call was attempted. -/
def processClipJob3 (items : List MediaItem) (outputPath : String) (env : Job3Env) :
    Job3Result × List (String × String) × Option WebhookPayload :=
  match createClipSettled env.exec with
  | .error msg =>
    ({ success := false, clipUrl := none, error := some msg },
      [("error", "Error processing clip job")], none)
  | .ok _ =>
    if env.outputExists then
      ({ success := true, clipUrl := some outputPath, error := none },
        webhookLogs env.webhookUrl env.webhook ++ [("info", "Clip job processed successfully")],
        if env.webhookUrl != "" then
          some { clipUrl := outputPath, fileSize := env.outputSize
                 duration := totalDurationReduce items, mediaItemCount := items.length }
        else none)
    else
      ({ success := false, clipUrl := none, error := some "Output file was not created" },
        [("error", "Error processing clip job")], none)

/-! Helper lemmas about the plan-building loop and the worker. -/

theorem buildPlanAux_totalDuration (fontPath : String) (l : List MediaItem) :
    ∀ (i : ℕ) (st : PlanState),
    (buildPlanAux fontPath i l st).totalDuration =
      l.foldl (fun t it => t.add (durContribution it)) st.totalDuration := by
  induction l with
  | nil => intro i st; rfl
  | cons item rest ih =>
    intro i st
    simp only [buildPlanAux, List.foldl_cons, ih]
    rfl

theorem durContribution_valid {it : MediaItem} (h : it.duration.isPosFinite = true) :
    durContribution it = it.duration := by
  obtain ⟨q, hd, hq⟩ := JNum.isPosFinite_exists h
  cases hk : it.kind with
  | image => simp [durContribution, hk, resolvedImageDur, hd, JNum.isFalsy, hq.ne']
  | video => simp [durContribution, hk, videoDurContribution, hd, JNum.isNaN, JNum.le0, not_le.mpr hq]

theorem foldl_durContribution_valid (l : List MediaItem)
    (h : ∀ it ∈ l, it.duration.isPosFinite = true) (a : ℚ) :
    l.foldl (fun t it => t.add (durContribution it)) (JNum.num a) =
      JNum.num (a + (l.map fun it => (durContribution it).toQ).sum) := by
  induction l generalizing a with
  | nil => simp
  | cons it rest ih =>
    have hit := h it (List.mem_cons_self it rest)
    obtain ⟨q, hd, hq⟩ := JNum.isPosFinite_exists hit
    have hdc : durContribution it = .num q := by rw [durContribution_valid hit, hd]
    have ihr := ih fun x hx => h x (List.mem_cons_of_mem _ hx)
    simp only [List.foldl_cons, List.map_cons, List.sum_cons, hdc, JNum.add_num_num, ihr,
      JNum.toQ_num]
    congr 1
    ring

/-- The filter entries emitted for the items of l starting at index i (a proof
helper characterizing the loop). -/
def filtersFrom (fontPath : String) : ℕ → List MediaItem → List FilterFrag
  | _, [] => []
  | i, item :: rest => itemFilters fontPath i item ++ filtersFrom fontPath (i + 1) rest

theorem buildPlanAux_filters (fontPath : String) (l : List MediaItem) :
    ∀ (i : ℕ) (st : PlanState),
    (buildPlanAux fontPath i l st).filters = st.filters ++ filtersFrom fontPath i l := by
  induction l with
  | nil => intro i st; simp [buildPlanAux, filtersFrom]
  | cons item rest ih =>
    intro i st
    simp [buildPlanAux, filtersFrom, ih, processItem, List.append_assoc]

theorem drawtext_mem_itemFilters {fontPath : String} {i k : ℕ} {t : String} {item : MediaItem} :
    FilterFrag.drawtext i fontPath t ∈ itemFilters fontPath k item ↔
      (i = k ∧ t = item.text ∧ captionOn fontPath item = true) := by
  unfold itemFilters
  cases hc : captionOn fontPath item <;> cases hk : item.kind <;>
    simp [chainFilter, hk, and_assoc]

theorem drawtext_mem_filtersFrom (fontPath : String) (t : String) (l : List MediaItem) :
    ∀ (k i : ℕ),
    (FilterFrag.drawtext i fontPath t ∈ filtersFrom fontPath k l ↔
      ∃ j it, l.get? j = some it ∧ k + j = i ∧ t = it.text ∧
        captionOn fontPath it = true) := by
  induction l with
  | nil => intro k i; simp [filtersFrom]
  | cons item rest ih =>
    intro k i
    simp only [filtersFrom, List.mem_append, drawtext_mem_itemFilters, ih]
    constructor
    · rintro (⟨rfl, rfl, hc⟩ | ⟨j, it, hj, hk, ht, hc⟩)
      · exact ⟨0, item, rfl, by omega, rfl, hc⟩
      · exact ⟨j + 1, it, by simpa using hj, by omega, ht, hc⟩
    · rintro ⟨j, it, hj, hk, ht, hc⟩
      cases j with
      | zero =>
        simp only [List.get?_cons_zero, Option.some.injEq] at hj
        subst hj
        exact Or.inl ⟨by omega, ht, hc⟩
      | succ j =>
        exact Or.inr ⟨j, it, by simpa using hj, by omega, ht, hc⟩

theorem processClipJob_eq (items : List MediaItem) (fe : FontEnv) (env : ExecEnv)
    (disk : DiskEnv) (tempFileName : String) :
    processClipJob items fe env disk tempFileName =
      if timeoutMs < env.eventAtMs then
        { success := false, clipPath := none, fileName := none, error := some timeoutMessage }
      else
        match env.event with
        | .errors msg =>
          { success := false, clipPath := none, fileName := none, error := some msg }
        | .ends =>
          if disk.outputExists then
            { success := true, clipPath := some (osTmpDir ++ "/" ++ tempFileName)
              fileName := some tempFileName, error := none }
          else
            { success := false, clipPath := none, fileName := none
              error := some "Output file was not created" } := by
  unfold processClipJob runCreateClip
  by_cases h : timeoutMs < env.eventAtMs
  · simp [h]
  · cases env.event <;> simp [h]

/-! The claim theorems. -/

/-- Claim C1: for every job whose media items all have valid positive finite
durations, the computed totalDuration equals the sum of the resolved display
durations of the items, that value is also emitted as the -t output duration
bound of the encode, and it is the value the render resolves with when the
end event fires within the timeout ceiling. -/
theorem C1_total_duration_is_sum (fontPath : String) (items : List MediaItem) (env : ExecEnv)
    (hvalid : ∀ it ∈ items, it.duration.isPosFinite = true)
    (htime : env.eventAtMs ≤ timeoutMs) (hev : env.event = .ends) :
    (createClipPlan fontPath items).totalDuration =
        .num ((items.map fun it => (durContribution it).toQ).sum)
    ∧ (createClipPlan fontPath items).tOption = (createClipPlan fontPath items).totalDuration
    ∧ runCreateClip (createClipPlan fontPath items) env =
        { outcome := .resolved ((createClipPlan fontPath items).totalDuration)
          killed := false } := by
  have htot : (createClipPlan fontPath items).totalDuration =
      .num ((items.map fun it => (durContribution it).toQ).sum) := by
    show (buildPlanAux fontPath 0 items ⟨.num 0, [], []⟩).totalDuration = _
    rw [buildPlanAux_totalDuration]
    show items.foldl _ (JNum.num 0) = _
    rw [foldl_durContribution_valid items hvalid 0]
    norm_num
  exact ⟨htot, rfl, by simp [runCreateClip, hev, Nat.not_lt.mpr htime]⟩

/-- Concrete instantiation of C1 at a two-item job (an image of 2 seconds and
a video of 3 seconds, ending cleanly after one second of wall time). -/
theorem C1_total_duration_is_sum_witness :
    (createClipPlan "" [⟨"a.jpg", .num 2, .image, ""⟩, ⟨"b.mp4", .num 3, .video, ""⟩]).totalDuration =
        .num ((([⟨"a.jpg", .num 2, .image, ""⟩, ⟨"b.mp4", .num 3, .video, ""⟩] :
          List MediaItem).map fun it => (durContribution it).toQ).sum)
    ∧ (createClipPlan "" [⟨"a.jpg", .num 2, .image, ""⟩, ⟨"b.mp4", .num 3, .video, ""⟩]).tOption =
        (createClipPlan "" [⟨"a.jpg", .num 2, .image, ""⟩, ⟨"b.mp4", .num 3, .video, ""⟩]).totalDuration
    ∧ runCreateClip (createClipPlan "" [⟨"a.jpg", .num 2, .image, ""⟩, ⟨"b.mp4", .num 3, .video, ""⟩])
        ⟨.ends, 1000⟩ =
        { outcome := .resolved ((createClipPlan ""
            [⟨"a.jpg", .num 2, .image, ""⟩, ⟨"b.mp4", .num 3, .video, ""⟩]).totalDuration)
          killed := false } :=
  C1_total_duration_is_sum "" _ ⟨.ends, 1000⟩
    (by intro it hit; fin_cases hit <;> simp [JNum.isPosFinite])
    (by decide) rfl

/-- Claim C2 (amended): the worker declares success exactly when the encoder
run settles with the end event within the timeout ceiling and the output file
exists on disk; when the file is absent after a clean end, the result is the
structured missing-output failure.  The size of the output file is not
consulted (this is where the original claim fails). -/
theorem C2_success_iff_output_exists (items : List MediaItem) (fe : FontEnv) (env : ExecEnv)
    (disk : DiskEnv) (tempFileName : String) :
    ((processClipJob items fe env disk tempFileName).success = true ↔
      (env.eventAtMs ≤ timeoutMs ∧ env.event = .ends ∧ disk.outputExists = true))
    ∧ (env.eventAtMs ≤ timeoutMs → env.event = .ends → disk.outputExists = false →
        processClipJob items fe env disk tempFileName =
          { success := false, clipPath := none, fileName := none
            error := some "Output file was not created" }) := by
  rw [processClipJob_eq]
  by_cases h : timeoutMs < env.eventAtMs <;> cases hev : env.event <;>
    cases hex : disk.outputExists <;> simp [h, hev] <;> try omega

/-- Concrete instantiation of C2 (amended): a clean end with the output file
absent yields the missing-output failure. -/
theorem C2_success_iff_output_exists_witness :
    processClipJob [] ⟨false, false, false⟩ ⟨.ends, 0⟩ ⟨false, 0⟩ "clip.mp4" =
      { success := false, clipPath := none, fileName := none
        error := some "Output file was not created" } :=
  (C2_success_iff_output_exists [] ⟨false, false, false⟩ ⟨.ends, 0⟩ ⟨false, 0⟩ "clip.mp4").2
    (by decide) rfl rfl

/-- Counterexample to claim C2 as stated: after a clean exit the worker
declares success although the output file on disk has size zero, because only
existence is checked (fs.pathExists), never the size. -/
theorem C2_nonzero_size_counterexample :
    (processClipJob [] ⟨false, false, false⟩ ⟨.ends, 0⟩ ⟨true, 0⟩ "clip.mp4").success = true
    ∧ (⟨true, 0⟩ : DiskEnv).outputSize = 0 := by
  constructor
  · rw [processClipJob_eq]; rfl
  · rfl

/-- Claim C3: when the settling event would fire only after the 15-minute
ceiling, the executor kills the subprocess and rejects with the timeout
message; the worker stores a structured failure result after its single
attempt (bullmq therefore records the job as completed, a terminal state that
is never re-dispatched), and a status poll reports the job as failed. -/
theorem C3_timeout_kills_and_fails (items : List MediaItem) (fe : FontEnv) (disk : DiskEnv)
    (tempFileName jobId : String) (env : ExecEnv) (h : timeoutMs < env.eventAtMs) :
    runCreateClip (createClipPlan (resolveFontPath fe) items) env =
        { outcome := .rejected timeoutMessage, killed := true }
    ∧ (runWorkerOnce items fe env disk tempFileName).returnvalue =
        some { success := false, clipPath := none, fileName := none
               error := some timeoutMessage }
    ∧ (runWorkerOnce items fe env disk tempFileName).state = .completed
    ∧ (runWorkerOnce items fe env disk tempFileName).attemptsMade = 1
    ∧ getHandler (some jobId) (some (runWorkerOnce items fe env disk tempFileName)) =
        .jsonRes 200 failedBody := by
  refine ⟨by simp [runCreateClip, h], ?_, rfl, rfl, ?_⟩
  · simp [runWorkerOnce, processClipJob_eq, h]
  · simp [getHandler, runWorkerOnce, processClipJob_eq, h]

/-- Concrete instantiation of C3: the end event would fire one millisecond
after the ceiling. -/
theorem C3_timeout_kills_and_fails_witness :
    runCreateClip (createClipPlan (resolveFontPath ⟨true, false, false⟩) []) ⟨.ends, 900001⟩ =
        { outcome := .rejected timeoutMessage, killed := true }
    ∧ (runWorkerOnce [] ⟨true, false, false⟩ ⟨.ends, 900001⟩ ⟨false, 0⟩ "c.mp4").returnvalue =
        some { success := false, clipPath := none, fileName := none
               error := some timeoutMessage }
    ∧ (runWorkerOnce [] ⟨true, false, false⟩ ⟨.ends, 900001⟩ ⟨false, 0⟩ "c.mp4").state = .completed
    ∧ (runWorkerOnce [] ⟨true, false, false⟩ ⟨.ends, 900001⟩ ⟨false, 0⟩ "c.mp4").attemptsMade = 1
    ∧ getHandler (some "1") (some (runWorkerOnce [] ⟨true, false, false⟩ ⟨.ends, 900001⟩
        ⟨false, 0⟩ "c.mp4")) = .jsonRes 200 failedBody :=
  C3_timeout_kills_and_fails [] ⟨true, false, false⟩ ⟨false, 0⟩ "c.mp4" "1" ⟨.ends, 900001⟩
    (by decide)

/-- Claim C4: for a successfully rendered job with a webhook url configured,
a failing webhook POST (a thrown network error or a non-ok response) is
logged and leaves the terminal result unchanged: the job still reports
success with the output path. -/
theorem C4_webhook_failure_is_logged_only (items : List MediaItem) (outputPath : String)
    (env : Job3Env) (hurl : env.webhookUrl ≠ "") (htime : env.exec.eventAtMs ≤ timeoutMs)
    (hev : env.exec.event = .ends) (hex : env.outputExists = true)
    (hfail : env.webhook ≠ .delivered) :
    (processClipJob3 items outputPath env).1 =
        { success := true, clipUrl := some outputPath, error := none }
    ∧ ("error", "Error sending clip to webhook") ∈ (processClipJob3 items outputPath env).2.1 := by
  have hsettle : createClipSettled env.exec = .ok () := by
    simp [createClipSettled, hev, Nat.not_lt.mpr htime]
  constructor
  · simp [processClipJob3, hsettle, hex]
  · simp only [processClipJob3, hsettle, hex, if_true]
    cases hw : env.webhook with
    | delivered => exact absurd hw hfail
    | httpError s st => simp [webhookLogs, hurl]
    | networkError m => simp [webhookLogs, hurl]

/-- Concrete instantiation of C4: an http 500 webhook response after a clean
one-second render with the output present. -/
theorem C4_webhook_failure_is_logged_only_witness :
    (processClipJob3 [] "out.mp4"
        ⟨⟨.ends, 1000⟩, true, 77, "https://hook.example", .httpError 500 "err"⟩).1 =
      { success := true, clipUrl := some "out.mp4", error := none }
    ∧ ("error", "Error sending clip to webhook") ∈
        (processClipJob3 [] "out.mp4"
          ⟨⟨.ends, 1000⟩, true, 77, "https://hook.example", .httpError 500 "err"⟩).2.1 :=
  C4_webhook_failure_is_logged_only [] "out.mp4"
    ⟨⟨.ends, 1000⟩, true, 77, "https://hook.example", .httpError 500 "err"⟩
    (by decide) (by decide) rfl rfl (by decide)

/-- Claim C5: a drawtext caption overlay for item i is in the filter graph
exactly when the text of item i is non-empty and the resolved font path is
non-empty; moreover the success of the worker does not depend on which font
files exist, so a job without a usable font still completes. -/
theorem C5_caption_iff_text_and_font (fontPath : String) (items : List MediaItem) (i : ℕ)
    (item : MediaItem) (hget : items.get? i = some item) :
    (FilterFrag.drawtext i fontPath item.text ∈ (createClipPlan fontPath items).filters ↔
      (item.text ≠ "" ∧ fontPath ≠ ""))
    ∧ (∀ (fe fe' : FontEnv) (env : ExecEnv) (disk : DiskEnv) (t : String),
        (processClipJob items fe env disk t).success =
          (processClipJob items fe' env disk t).success) := by
  constructor
  · have hplan : (createClipPlan fontPath items).filters =
        filtersFrom fontPath 0 items ++ [.concat (buildPlanAux fontPath 0 items
          ⟨.num 0, [], []⟩).inputs items.length] := by
      show (buildPlanAux fontPath 0 items ⟨.num 0, [], []⟩).filters ++ _ = _
      rw [buildPlanAux_filters]
      simp
    rw [hplan]
    simp only [List.mem_append, List.mem_singleton, drawtext_mem_filtersFrom]
    constructor
    · rintro (⟨j, it, hj, hk, ht, hc⟩ | hfalse)
      · have : j = i := by omega
        subst this
        rw [hget] at hj
        cases hj
        simp only [captionOn, Bool.and_eq_true, bne_iff_ne, ne_eq] at hc
        exact ⟨hc.1, hc.2⟩
      · cases hfalse
    · rintro ⟨ht, hf⟩
      exact Or.inl ⟨i, item, hget, by omega, rfl, by
        simp only [captionOn, Bool.and_eq_true, bne_iff_ne, ne_eq]; exact ⟨ht, hf⟩⟩
  · intro fe fe' env disk t
    rw [processClipJob_eq, processClipJob_eq]

/-- Concrete instantiation of C5: with the project font present, a captioned
image item receives its overlay. -/
theorem C5_caption_iff_text_and_font_witness :
    FilterFrag.drawtext 0 assetFontPath "hi" ∈
      (createClipPlan assetFontPath [⟨"a.jpg", .num 4, .image, "hi"⟩]).filters :=
  ((C5_caption_iff_text_and_font assetFontPath [⟨"a.jpg", .num 4, .image, "hi"⟩] 0
      ⟨"a.jpg", .num 4, .image, "hi"⟩ rfl).1).mpr (by decide)

/-- Claim C6: an image item whose parsed per-slot duration is NaN (absent or
unparsable metadata) resolves to exactly 4 seconds, and a video item whose
parsed duration is NaN, negative infinity or a nonpositive number resolves to
exactly 10 seconds, both per item and in the totalDuration of a plan built
for such a single-item job. -/
theorem C6_default_durations (item : MediaItem) (fontPath : String) :
    (item.kind = .image → item.duration = .nan →
      durContribution item = .num 4
      ∧ (createClipPlan fontPath [item]).totalDuration = .num 4)
    ∧ (item.kind = .video →
        (item.duration = .nan ∨ item.duration = .ninf ∨
          ∃ q, item.duration = .num q ∧ q ≤ 0) →
      durContribution item = .num 10
      ∧ (createClipPlan fontPath [item]).totalDuration = .num 10) := by
  have htot : ∀ q : ℚ, durContribution item = .num q →
      (createClipPlan fontPath [item]).totalDuration = .num q := by
    intro q hq
    show (buildPlanAux fontPath 0 [item] ⟨.num 0, [], []⟩).totalDuration = _
    rw [buildPlanAux_totalDuration]
    simp [hq]
  constructor
  · intro hk hd
    have hc : durContribution item = .num 4 := by
      simp [durContribution, hk, resolvedImageDur, hd, JNum.isFalsy]
    exact ⟨hc, htot 4 hc⟩
  · intro hk hd
    have hc : durContribution item = .num 10 := by
      rcases hd with hd | hd | ⟨q, hd, hq⟩
      · simp [durContribution, hk, videoDurContribution, hd, JNum.isNaN]
      · simp [durContribution, hk, videoDurContribution, hd, JNum.isNaN, JNum.le0]
      · simp [durContribution, hk, videoDurContribution, hd, JNum.isNaN, JNum.le0, hq]
    exact ⟨hc, htot 10 hc⟩

/-- Concrete instantiation of C6: an image item with unparsable duration
metadata resolves to 4 seconds, alone in a job as well. -/
theorem C6_default_durations_witness :
    durContribution ⟨"a.jpg", .nan, .image, ""⟩ = .num 4
    ∧ (createClipPlan "" [⟨"a.jpg", .nan, .image, ""⟩]).totalDuration = .num 4 :=
  (C6_default_durations ⟨"a.jpg", .nan, .image, ""⟩ "").1 rfl rfl

/-- Counterexample to claim C7 as stated: for a video item of 0.6 seconds the
emitted fade length is the fixed 0.5, not min(0.5, 0.3); the clamping of the
transition length is applied only in the image branch. -/
theorem C7_video_fade_unclamped_counterexample :
    (createClipPlan "" [⟨"v.mp4", .num (3 / 5), .video, ""⟩]).filters =
      [.videoChain 0 (.num 0) (.num (1 / 2)) (.num (1 / 10)) (.num (1 / 2)),
        .concat [(0, false)] 1]
    ∧ (1 / 2 : ℚ) ≠ min (1 / 2 : ℚ) (3 / 5 / 2 : ℚ) := by
  constructor
  · show (buildPlanAux "" 0 _ ⟨.num 0, [], []⟩).filters ++ _ = _
    rw [buildPlanAux_filters]
    simp [filtersFrom, itemFilters, chainFilter, captionOn, fadeDuration, buildPlanAux,
      processItem]
    norm_num
  · rw [min_def]
    norm_num

/-- Claim C7 (amended): an image item gets a fade-in starting at 0 and a
fade-out ending at its resolved duration, each of effective length
min(0.5, duration / 2), so the two image fades never overlap; a video item
instead gets fades of the fixed length 0.5, the fade-out starting at its
parsed duration minus 0.5, with no clamping for short durations. -/
theorem C7_fade_geometry (i : ℕ) (item : MediaItem) (q : ℚ) (hq : 0 < q)
    (hd : item.duration = .num q) :
    (item.kind = .image →
      chainFilter i item =
        .imageChain i (.num q) (.num 0) (.num (min (1 / 2) (q / 2)))
          (.num (q - min (1 / 2) (q / 2))) (.num (min (1 / 2) (q / 2)))
      ∧ min (1 / 2 : ℚ) (q / 2) ≤ q - min (1 / 2 : ℚ) (q / 2))
    ∧ (item.kind = .video →
      chainFilter i item =
        .videoChain i (.num 0) (.num (1 / 2)) (.num (q - 1 / 2)) (.num (1 / 2))) := by
  constructor
  · intro hk
    have hres : resolvedImageDur item.duration = .num q := by
      simp [resolvedImageDur, hd, JNum.isFalsy, hq.ne']
    constructor
    · simp [chainFilter, hk, hres, fadeDuration]
    · have h1 : min (1 / 2 : ℚ) (q / 2) ≤ q / 2 := min_le_right _ _
      linarith
  · intro hk
    simp [chainFilter, hk, hd, fadeDuration]

/-- Concrete instantiation of C7 (amended) at an image item of 4 seconds. -/
theorem C7_fade_geometry_witness :
    chainFilter 0 ⟨"a.jpg", .num 4, .image, ""⟩ =
      .imageChain 0 (.num 4) (.num 0) (.num (min (1 / 2) (4 / 2)))
        (.num (4 - min (1 / 2 : ℚ) (4 / 2))) (.num (min (1 / 2) (4 / 2)))
    ∧ min (1 / 2 : ℚ) (4 / 2) ≤ 4 - min (1 / 2 : ℚ) (4 / 2) :=
  (C7_fade_geometry 0 ⟨"a.jpg", .num 4, .image, ""⟩ 4 (by norm_num) rfl).1 rfl

/-- Claim C8: a submission with zero uploaded files is rejected at intake with
an HTTP 500 response carrying an error message body, and nothing is added to
the queue. -/
theorem C8_zero_files_rejected (inp : PostInput) (sessionId jobId : String)
    (h : inp.files = []) :
    postHandler inp sessionId jobId =
      { status := 500, body := [("error", "Error processing request")], enqueued := false } := by
  simp [postHandler, h]

/-- Concrete instantiation of C8 at an empty submission. -/
theorem C8_zero_files_rejected_witness :
    postHandler ⟨[], [("text0", "hello")]⟩ "sess" "job1" =
      { status := 500, body := [("error", "Error processing request")], enqueued := false } :=
  C8_zero_files_rejected ⟨[], [("text0", "hello")]⟩ "sess" "job1" rfl

/-- Counterexample to claim C9 as stated: the same ordered media-item list
yields different filter graphs depending on whether the probed font file
exists, because the builder reads the filesystem to resolve the caption font
and the drawtext fragment is emitted only when a font was found. -/
theorem C9_font_probe_counterexample :
    createClipPlan (resolveFontPath ⟨true, false, false⟩) [⟨"a.jpg", .num 4, .image, "cap"⟩] ≠
      createClipPlan (resolveFontPath ⟨false, false, false⟩)
        [⟨"a.jpg", .num 4, .image, "cap"⟩] := by
  intro h
  have hlen := congrArg (fun p => p.filters.length) h
  simp only [createClipPlan, buildPlanAux, processItem, itemFilters, captionOn,
    resolveFontPath, assetFontPath] at hlen
  simp at hlen

/-- Claim C9 (amended): plan construction is deterministic in the ordered
media-item list together with the resolved font path; two builds whose font
probing resolved to the same path produce the identical plan, but the build
does read the filesystem for the font, on which the emitted overlays depend. -/
theorem C9_plan_determinism (items : List MediaItem) (fe fe' : FontEnv)
    (h : resolveFontPath fe = resolveFontPath fe') :
    createClipPlan (resolveFontPath fe) items = createClipPlan (resolveFontPath fe') items := by
  rw [h]

/-- Concrete instantiation of C9 (amended): two environments that both
resolve to the project font produce the same plan. -/
theorem C9_plan_determinism_witness :
    createClipPlan (resolveFontPath ⟨true, true, true⟩) [⟨"a.jpg", .num 4, .image, "cap"⟩] =
      createClipPlan (resolveFontPath ⟨true, false, false⟩)
        [⟨"a.jpg", .num 4, .image, "cap"⟩] :=
  C9_plan_determinism [⟨"a.jpg", .num 4, .image, "cap"⟩] ⟨true, true, true⟩
    ⟨true, false, false⟩ rfl

/-- Claim C10: a failed render still leaves the job in queue state completed,
because the worker returns a structured failure instead of throwing; polling
such a job answers 200 with the failed status body and never streams a
file. -/
theorem C10_failed_render_polls_failed (items : List MediaItem) (fe : FontEnv) (env : ExecEnv)
    (disk : DiskEnv) (tempFileName jobId : String)
    (hfail : (processClipJob items fe env disk tempFileName).success = false) :
    (runWorkerOnce items fe env disk tempFileName).state = .completed
    ∧ getHandler (some jobId) (some (runWorkerOnce items fe env disk tempFileName)) =
        .jsonRes 200 failedBody := by
  refine ⟨rfl, ?_⟩
  simp only [getHandler, runWorkerOnce]
  cases hcp : (processClipJob items fe env disk tempFileName).clipPath with
  | none => simp [hcp]
  | some p => simp [hcp, hfail]

/-- Concrete instantiation of C10: a render rejected by an encoder error is
polled as failed. -/
theorem C10_failed_render_polls_failed_witness :
    (runWorkerOnce [] ⟨false, false, false⟩ ⟨.errors "boom", 0⟩ ⟨false, 0⟩ "c.mp4").state =
        .completed
    ∧ getHandler (some "7") (some (runWorkerOnce [] ⟨false, false, false⟩ ⟨.errors "boom", 0⟩
        ⟨false, 0⟩ "c.mp4")) = .jsonRes 200 failedBody :=
  C10_failed_render_polls_failed [] ⟨false, false, false⟩ ⟨.errors "boom", 0⟩ ⟨false, 0⟩
    "c.mp4" "7" (by rw [processClipJob_eq]; rfl)

end ClipMaker
